import Mathlib

set_option maxHeartbeats 1000000

/-!
Shallow embedding of two source files:

* `falafel/mappers/rhn_server_xmlrpc.py` — class `ServerXMLRPCLog`
  (`parse_line`, `last`, the regex `LINE_RE` and the timestamp
  normalization through `datetime.strptime`).
* `insights/combiners/selinux.py` — class `SELinux`
  (`__init__`, `_check_sestatus`, `_check_boot_config`,
  `_check_grub_config`, `ok`, and the six problem-key constants).

Python dictionaries with string keys are modelled as insertion-ordered
association lists; Python character classes are modelled at their ASCII
meaning.
-/

namespace SELinux

/-- A value stored in the `problems` dict of `SELinux`: either a single
parsed string or a list of offending kernel lines. -/
inductive Problem where
  | str : String → Problem
  | lines : List String → Problem
deriving DecidableEq, Repr

/-- The `problems` dict: an insertion-ordered association list with
unique keys, as a Python `dict` with string keys. -/
abbrev Problems := List (String × Problem)

/-- `d[k] = v` on a Python dict: replace the value at an existing key in
place, otherwise append the new binding at the end. -/
def dictInsert : Problems → String → Problem → Problems
  | [], k, v => [(k, v)]
  | (k₀, v₀) :: rest, k, v =>
    if k₀ = k then (k, v) :: rest else (k₀, v₀) :: dictInsert rest k v

/-- `d.get(k)` / `k in d` on a Python dict. -/
def dictLookup : Problems → String → Option Problem
  | [], _ => none
  | (k₀, v₀) :: rest, k => if k₀ = k then some v₀ else dictLookup rest k

/-- `GRUB_DISABLED = 'grub_disabled'` -/
def GRUB_DISABLED : String := "grub_disabled"

/-- `GRUB_NOT_ENFORCING = 'grub_not_enforcing'` -/
def GRUB_NOT_ENFORCING : String := "grub_not_enforcing"

/-- `RUNTIME_DISABLED = 'sestatus_disabled'` -/
def RUNTIME_DISABLED : String := "sestatus_disabled"

/-- `RUNTIME_NOT_ENFORCING = 'sestatus_not_enforcing'` -/
def RUNTIME_NOT_ENFORCING : String := "sestatus_not_enforcing"

/-- `BOOT_DISABLED = 'selinux_conf_disabled'` -/
def BOOT_DISABLED : String := "selinux_conf_disabled"

/-- `BOOT_NOT_ENFORCING = 'selinux_conf_not_enforcing'` -/
def BOOT_NOT_ENFORCING : String := "selinux_conf_not_enforcing"

/-- The fields of `SEStatus.data` read by `_check_sestatus`. -/
structure SEStatusData where
  selinux_status : String
  current_mode : String
deriving DecidableEq, Repr

/-- The field of `SelinuxConfig.data` read by `_check_boot_config`. -/
structure SelinuxConfigData where
  SELINUX : String
deriving DecidableEq, Repr

/-- The two entry families of `GrubConfig` read by `_check_grub_config`;
`grub_config.get('menuentry')` returning `None` and returning an empty
list are indistinguishable under the truthiness tests the source makes,
so an absent family is modelled by `[]`. -/
structure GrubConfigData where
  menuentry : List (List (String × String))
  title : List (List (String × String))
deriving DecidableEq, Repr

/-- Python `s.startswith(pre)` (ASCII model). -/
def pyStartsWith (s pre : String) : Bool := pre.toList.isPrefixOf s.toList

/-- Contiguous-sublist test on character lists. -/
def infixOfCL : List Char → List Char → Bool
  | n, [] => n.isEmpty
  | n, c :: rest => n.isPrefixOf (c :: rest) || infixOfCL n rest

/-- Python `needle in hay` on strings: literal substring containment. -/
def pyContains (needle hay : String) : Bool := infixOfCL needle.toList hay.toList

/-- `_check_sestatus`, acting on the `problems` dict. -/
def check_sestatus (st : SEStatusData) (p : Problems) : Problems :=
  if st.selinux_status ≠ "enabled" then
    dictInsert p RUNTIME_DISABLED (.str st.selinux_status)
  else if st.current_mode ≠ "enforcing" then
    dictInsert p RUNTIME_NOT_ENFORCING (.str st.current_mode)
  else p

/-- `_check_boot_config`, acting on the `problems` dict. -/
def check_boot_config (cfg : SelinuxConfigData) (p : Problems) : Problems :=
  let opt_value := cfg.SELINUX
  if opt_value = "disabled" then
    dictInsert p BOOT_DISABLED (.str opt_value)
  else if opt_value ≠ "enforcing" then
    dictInsert p BOOT_NOT_ENFORCING (.str opt_value)
  else p

/-- The `kernel_lines` collection loop of `_check_grub_config`: probe the
`menuentry` family first, fall back to `title` only when no `menuentry`
entries exist. -/
def kernelLines (g : GrubConfigData) : List String :=
  if g.menuentry.isEmpty = false then
    g.menuentry.foldl (fun acc line =>
      line.foldl (fun acc nv =>
        if pyStartsWith nv.1 "linux" then acc ++ [nv.2] else acc) acc) []
  else if g.title.isEmpty = false then
    g.title.foldl (fun acc line =>
      line.foldl (fun acc nv =>
        if pyStartsWith nv.1 "kernel" then acc ++ [nv.2] else acc) acc) []
  else []

/-- `if k not in problems: problems[k] = []` followed by
`problems[k].append(line)`. A stored non-list value at `k` would fault in
the source (`.append` on a `str`); no caller in this development ever
reaches that branch, because only the grub check writes the grub keys. -/
def grubAppend (p : Problems) (k : String) (line : String) : Problems :=
  let p₁ := if dictLookup p k = none then dictInsert p k (.lines []) else p
  match dictLookup p₁ k with
  | some (.lines xs) => dictInsert p₁ k (.lines (xs ++ [line]))
  | _ => p₁

/-- One iteration of the detection loop of `_check_grub_config`: a single
kernel line may feed both problem lists. -/
def detectStep (p : Problems) (line : String) : Problems :=
  let p₁ := if pyContains "selinux=0" line then grubAppend p GRUB_DISABLED line else p
  if pyContains "enforcing=0" line then grubAppend p₁ GRUB_NOT_ENFORCING line else p₁

/-- `_check_grub_config`, acting on the `problems` dict. -/
def check_grub_config (g : GrubConfigData) (p : Problems) : Problems :=
  (kernelLines g).foldl detectStep p

/-- `SELinux.__init__`: start from an empty `problems` dict and run the
three checks in source order. -/
def SELinux_init (st : SEStatusData) (cfg : SelinuxConfigData) (g : GrubConfigData) :
    Problems :=
  check_grub_config g (check_boot_config cfg (check_sestatus st []))

/-- `SELinux.ok`: `not bool(self.problems)`. -/
def ok (p : Problems) : Bool := p.isEmpty

end SELinux

namespace ServerXMLRPCLog

/-- Python regex class `\d` (ASCII model of the source's class). -/
def pyDigit (c : Char) : Bool := c.isDigit

/-- Python regex class `\s`, i.e. one of space, tab, newline, carriage
return, vertical tab, form feed (ASCII model). -/
def pySpace (c : Char) : Bool :=
  c = ' ' || c = '\t' || c = '\n' || c = '\r' || c = '\x0b' || c = '\x0c'

/-- Python regex class `\w`: letters, digits and underscore (ASCII model). -/
def pyWord (c : Char) : Bool := c.isAlphanum || c = '_'

/-- The class `[\w.-]` of the `function` group. -/
def pyFnChar (c : Char) : Bool := pyWord c || c = '.' || c = '-'

/-- `\d{n}`: exactly `n` digit characters, returned with the rest of the
input. -/
def expectDigits : Nat → List Char → Option (List Char × List Char)
  | 0, l => some ([], l)
  | _ + 1, [] => none
  | n + 1, c :: l =>
    if pyDigit c then (expectDigits n l).map (fun dr => (c :: dr.1, dr.2)) else none

/-- One fixed literal character. -/
def expectChar (c : Char) : List Char → Option (List Char)
  | [] => none
  | c₀ :: l => if c₀ = c then some l else none

/-- Maximal run of characters satisfying `p`, with the rest of the input
(a structural version of `span`). -/
def spanP (p : Char → Bool) : List Char → List Char × List Char
  | [] => ([], [])
  | c :: l =>
    if p c then
      let ar := spanP p l
      (c :: ar.1, ar.2)
    else ([], c :: l)

/-- The `timestamp` group
`\d{4}/\d{2}/\d{2} \d{2}:\d{2}:\d{2} [+-]?\d{2}:\d{2}`.
Every piece is fixed-width and a sign can never be re-read as a digit, so
the regex engine's backtracking never has a second choice here: the group
consumes exactly this shape when it matches at all. -/
def matchTimestamp (l : List Char) : Option (List Char × List Char) :=
  match expectDigits 4 l with
  | none => none
  | some (d1, r) =>
  match expectChar '/' r with
  | none => none
  | some r =>
  match expectDigits 2 r with
  | none => none
  | some (d2, r) =>
  match expectChar '/' r with
  | none => none
  | some r =>
  match expectDigits 2 r with
  | none => none
  | some (d3, r) =>
  match expectChar ' ' r with
  | none => none
  | some r =>
  match expectDigits 2 r with
  | none => none
  | some (t1, r) =>
  match expectChar ':' r with
  | none => none
  | some r =>
  match expectDigits 2 r with
  | none => none
  | some (t2, r) =>
  match expectChar ':' r with
  | none => none
  | some r =>
  match expectDigits 2 r with
  | none => none
  | some (t3, r) =>
  match expectChar ' ' r with
  | none => none
  | some r =>
  let sr : List Char × List Char :=
    match r with
    | c :: rest => if c = '+' ∨ c = '-' then ([c], rest) else ([], c :: rest)
    | [] => ([], [])
  match expectDigits 2 sr.2 with
  | none => none
  | some (z1, r) =>
  match expectChar ':' r with
  | none => none
  | some r =>
  match expectDigits 2 r with
  | none => none
  | some (z2, r) =>
    some (d1 ++ ['/'] ++ d2 ++ ['/'] ++ d3 ++ [' '] ++ t1 ++ [':'] ++ t2 ++ [':'] ++
      t3 ++ [' '] ++ sr.1 ++ z1 ++ [':'] ++ z2, r)

/-- The named groups of `LINE_RE`. `client_id` and `args` hold `none`
when the group did not participate in the match (Python
`match.group(...) is None`). -/
structure LineGroups where
  timestamp : String
  pid : String
  client_ip : String
  module : String
  function : String
  client_id : Option String
  args : Option String
deriving DecidableEq, Repr

/-- The single optional trailing comma eaten by the lazy tail
`(?P<args>.*?),?\)`: the smallest `args` reaching the closing paren
strips one comma if the content ends with one. -/
def stripTrailingComma (l : List Char) : List Char :=
  if l.getLast? = some ',' then l.dropLast else l

/-- `(?:(?P<client_id>\d+), ?)?(?P<args>.*?),?` applied to the characters
strictly between the opening paren and the final closing paren. The
`client_id` alternative participates exactly when the content starts with
one or more digits followed by a comma; `, ?` then greedily eats one
space; since `.*?` can match anything (bar newline), the remainder always
becomes `args` minus one optional trailing comma. -/
def parenGroups (content : List Char) : Option String × String :=
  match spanP pyDigit content with
  | (ds, ',' :: rest) =>
    if ds.isEmpty then (none, (stripTrailingComma content).asString)
    else
      let rest₁ := match rest with
        | ' ' :: r => r
        | r => r
      (some ds.asString, (stripTrailingComma rest₁).asString)
  | _ => (none, (stripTrailingComma content).asString)

/-- `LINE_RE.search(line)`, i.e. the anchored pattern
`^(?P<timestamp>...) (?P<pid>\d+) (?P<client_ip>\S+): `
`(?P<module>\w+)/(?P<function>[\w.-]+)(?:\((?:(?P<client_id>\d+), ?)?(?P<args>.*?),?\))?$`.

Backtracking analysis baked into this functional form:
* an anchored `$` can also match just before one final newline, and no
  token of the pattern matches a newline character, so matching the
  pattern equals matching it, fully anchored, on the input minus one
  optional trailing newline, with a newline-free paren content;
* `\d+` before a literal space and `\w+` before `/` are maximal runs,
  since their classes exclude the following literal;
* in `(?P<client_ip>\S+): `, every character of the maximal non-space
  run except the last is followed by a non-space character, so the only
  candidate split puts the literal `:` on the run's last character and
  the literal space right after the run;
* `[\w.-]+` excludes `(`, so the `function` run is maximal and the
  optional paren group starts exactly at a `(` or the match fails;
* the closing `\)` is followed by `$`, so it can only consume the final
  character. -/
def matchLine (l₀ : List Char) : Option LineGroups :=
  let l := if l₀.getLast? = some '\n' then l₀.dropLast else l₀
  match matchTimestamp l with
  | none => none
  | some (ts, r) =>
  match expectChar ' ' r with
  | none => none
  | some r =>
  match spanP pyDigit r with
  | (pid, r) =>
  if pid.isEmpty then none else
  match expectChar ' ' r with
  | none => none
  | some r =>
  match spanP (fun c => !pySpace c) r with
  | (ipRun, r) =>
  if ipRun.length < 2 then none else
  if ipRun.getLast? ≠ some ':' then none else
  match expectChar ' ' r with
  | none => none
  | some r =>
  match spanP pyWord r with
  | (md, r) =>
  if md.isEmpty then none else
  match expectChar '/' r with
  | none => none
  | some r =>
  match spanP pyFnChar r with
  | (fn, r) =>
  if fn.isEmpty then none else
  match r with
  | [] =>
    some ⟨ts.asString, pid.asString, ipRun.dropLast.asString, md.asString,
      fn.asString, none, none⟩
  | '(' :: r₂ =>
    if r₂.getLast? ≠ some ')' then none else
    if r₂.dropLast.any (fun c => c = '\n') then none else
    let ca := parenGroups r₂.dropLast
    some ⟨ts.asString, pid.asString, ipRun.dropLast.asString, md.asString,
      fn.asString, ca.1, some ca.2⟩
  | _ => none

/-- `datetime` components with a UTC offset, the result of a successful
`datetime.strptime(..., "%Y/%m/%d %H:%M:%S %z")`. -/
structure PyDatetime where
  year : Nat
  month : Nat
  day : Nat
  hour : Nat
  minute : Nat
  second : Nat
  tzMinutes : Int
deriving DecidableEq, Repr

/-- The Gregorian leap rule used by `datetime.date`. -/
def isLeap (y : Nat) : Bool := (y % 4 = 0 && !(y % 100 = 0)) || y % 400 = 0

/-- Month lengths used by `datetime.date`. -/
def daysInMonth (y m : Nat) : Nat :=
  if m = 2 then (if isLeap y then 29 else 28)
  else if m = 4 ∨ m = 6 ∨ m = 9 ∨ m = 11 then 30
  else 31

/-- Numeric value of a digit string. -/
def digitsVal (l : List Char) : Nat :=
  l.foldl (fun n c => 10 * n + (c.toNat - '0'.toNat)) 0

/-- `datetime.strptime(s, "%Y/%m/%d %H:%M:%S %z")` restricted to the
shapes `parse_line` can feed it (a regex-matched timestamp with the
offset colon sliced out). Failure covers both a format mismatch (for
instance a missing offset sign, which is how an unsigned timestamp dies
after the slicing) and a `ValueError` from the `datetime`/`timezone`
constructors: month outside 1..12, day outside the month, hour above 23,
minute or second above 59 (`%S` alone would admit leap seconds 60 and 61
but the `datetime` constructor rejects them), year 0, or a UTC offset of
24 hours or more. -/
def strptimeZ (l : List Char) : Option PyDatetime :=
  match expectDigits 4 l with
  | none => none
  | some (y, r) =>
  match expectChar '/' r with
  | none => none
  | some r =>
  match expectDigits 2 r with
  | none => none
  | some (mo, r) =>
  match expectChar '/' r with
  | none => none
  | some r =>
  match expectDigits 2 r with
  | none => none
  | some (d, r) =>
  match expectChar ' ' r with
  | none => none
  | some r =>
  match expectDigits 2 r with
  | none => none
  | some (h, r) =>
  match expectChar ':' r with
  | none => none
  | some r =>
  match expectDigits 2 r with
  | none => none
  | some (mi, r) =>
  match expectChar ':' r with
  | none => none
  | some r =>
  match expectDigits 2 r with
  | none => none
  | some (s, r) =>
  match expectChar ' ' r with
  | none => none
  | some r =>
  match r with
  | [] => none
  | c :: r =>
    if c = '+' ∨ c = '-' then
      match expectDigits 2 r with
      | none => none
      | some (zh, r) =>
      match expectDigits 2 r with
      | none => none
      | some (zm, r) =>
      if r ≠ [] then none else
      let Y := digitsVal y
      let M := digitsVal mo
      let D := digitsVal d
      let H := digitsVal h
      let Mi := digitsVal mi
      let S := digitsVal s
      let Z := digitsVal zh * 60 + digitsVal zm
      if 1 ≤ Y ∧ 1 ≤ M ∧ M ≤ 12 ∧ 1 ≤ D ∧ D ≤ daysInMonth Y M ∧
          H ≤ 23 ∧ Mi ≤ 59 ∧ S ≤ 59 ∧ Z ≤ 1439 then
        some ⟨Y, M, D, H, Mi, S, if c = '-' then -(Z : Int) else (Z : Int)⟩
      else none
    else none

/-- `stamp[0:23] + stamp[24:26]`: remove the colon inside the UTC offset
of a 26-character signed timestamp (shorter stamps produce a shape `%z`
rejects). -/
def sliceTs (l : List Char) : List Char := l.take 23 ++ (l.drop 24).take 2

/-- The value stored under the `timestamp` key of `msg_info`: the loop
over `GROUPS` first stores the matched string, and the `try` block
replaces it by a `datetime` only when `strptime` succeeds — on a
`ValueError` the bare `except: pass` leaves the string in place. -/
inductive TsValue where
  | str : String → TsValue
  | dt : PyDatetime → TsValue
deriving DecidableEq, Repr

/-- The `msg_info` dict. Every field models one key, `none` meaning the
key is absent: `parse_line` stores the seven group keys together exactly
when the regex matched, and `raw_log` always; the `dict()` that `last`
starts from has no keys at all. -/
structure MsgInfo where
  raw_log : Option String
  timestamp : Option TsValue
  pid : Option String
  client_ip : Option String
  module : Option String
  function : Option String
  client_id : Option (Option String)
  args : Option (Option String)
deriving DecidableEq, Repr

/-- `dict()` -/
def emptyMsg : MsgInfo := ⟨none, none, none, none, none, none, none, none⟩

/-- The `try`/`except` around `datetime.strptime` in `parse_line`. -/
def normalizeTs (ts : String) : TsValue :=
  match strptimeZ (sliceTs ts.toList) with
  | some d => .dt d
  | none => .str ts

/-- `ServerXMLRPCLog.parse_line`. -/
def parse_line (line : String) : MsgInfo :=
  match matchLine line.toList with
  | none => { emptyMsg with raw_log := some line }
  | some g =>
    { raw_log := some line
      timestamp := some (normalizeTs g.timestamp)
      pid := some g.pid
      client_ip := some g.client_ip
      module := some g.module
      function := some g.function
      client_id := some g.client_id
      args := some g.args }

/-- The loop of `last` over `reversed(self.data[-2:])`, threading the
current `msg_info`. Reading `msg_info['client_ip']` on a dict missing
that key raises `KeyError`, modelled by `Except.error ()`; a present
value is truthy exactly when the string is non-empty. -/
def lastLoop : List String → MsgInfo → Except Unit MsgInfo
  | [], m => .ok m
  | l :: rest, _ =>
    let m := parse_line l
    match m.client_ip with
    | none => .error ()
    | some ip => if ip ≠ "" then .ok m else lastLoop rest m

/-- `ServerXMLRPCLog.last` over the view's list of raw lines. -/
def last (data : List String) : Except Unit MsgInfo :=
  lastLoop ((data.drop (data.length - 2)).reverse) emptyMsg

end ServerXMLRPCLog

namespace SELinux

/-- Left-biased choice: the value an overwriting dict assignment leaves
visible over what was there before. -/
def oshadow : Option Problem → Option Problem → Option Problem
  | some v, _ => some v
  | none, b => b

/-- Statement-side characterization (spec side of the refinement lemmas):
the contribution of the runtime check at key `k`. -/
def seSpec (st : SEStatusData) (k : String) : Option Problem :=
  if k = RUNTIME_DISABLED then
    if st.selinux_status ≠ "enabled" then some (.str st.selinux_status) else none
  else if k = RUNTIME_NOT_ENFORCING then
    if st.selinux_status = "enabled" ∧ st.current_mode ≠ "enforcing" then
      some (.str st.current_mode)
    else none
  else none

/-- Statement-side characterization: the contribution of the boot-config
check at key `k`. -/
def bootSpec (cfg : SelinuxConfigData) (k : String) : Option Problem :=
  if k = BOOT_DISABLED then
    if cfg.SELINUX = "disabled" then some (.str cfg.SELINUX) else none
  else if k = BOOT_NOT_ENFORCING then
    if cfg.SELINUX ≠ "disabled" ∧ cfg.SELINUX ≠ "enforcing" then some (.str cfg.SELINUX)
    else none
  else none

/-- Statement-side characterization: the contribution of the bootloader
check at key `k`. -/
def grubSpec (g : GrubConfigData) (k : String) : Option Problem :=
  if k = GRUB_DISABLED then
    (if ((kernelLines g).filter (pyContains "selinux=0")).isEmpty then none
     else some (.lines ((kernelLines g).filter (pyContains "selinux=0"))))
  else if k = GRUB_NOT_ENFORCING then
    (if ((kernelLines g).filter (pyContains "enforcing=0")).isEmpty then none
     else some (.lines ((kernelLines g).filter (pyContains "enforcing=0"))))
  else none

/-- What the grub detection loop does to the stored value at one of its
two keys, as a function of the list of lines it appends there. -/
def optAppend : Option Problem → List String → Option Problem
  | some (.str v), _ => some (.str v)
  | some (.lines xs), f => some (.lines (xs ++ f))
  | none, f => if f.isEmpty then none else some (.lines f)

end SELinux

namespace ServerXMLRPCLog

/-- Statement side for the round-trip property: the individual characters
substituted into the timestamp position of the grammar. -/
structure TsParts where
  y1 : Char
  y2 : Char
  y3 : Char
  y4 : Char
  m1 : Char
  m2 : Char
  d1 : Char
  d2 : Char
  h1 : Char
  h2 : Char
  n1 : Char
  n2 : Char
  s1 : Char
  s2 : Char
  z1 : Char
  z2 : Char
  z3 : Char
  z4 : Char
  sign : Option Char
deriving DecidableEq, Repr

/-- The timestamp characters are digits and the optional offset sign is
`+` or `-`. -/
def wfTs (t : TsParts) : Prop :=
  pyDigit t.y1 = true ∧ pyDigit t.y2 = true ∧ pyDigit t.y3 = true ∧ pyDigit t.y4 = true ∧
  pyDigit t.m1 = true ∧ pyDigit t.m2 = true ∧ pyDigit t.d1 = true ∧ pyDigit t.d2 = true ∧
  pyDigit t.h1 = true ∧ pyDigit t.h2 = true ∧ pyDigit t.n1 = true ∧ pyDigit t.n2 = true ∧
  pyDigit t.s1 = true ∧ pyDigit t.s2 = true ∧ pyDigit t.z1 = true ∧ pyDigit t.z2 = true ∧
  pyDigit t.z3 = true ∧ pyDigit t.z4 = true ∧
  (t.sign = none ∨ t.sign = some '+' ∨ t.sign = some '-')

/-- The timestamp substituted into the grammar. -/
def renderTs (t : TsParts) : List Char :=
  [t.y1, t.y2, t.y3, t.y4, '/', t.m1, t.m2, '/', t.d1, t.d2, ' ',
   t.h1, t.h2, ':', t.n1, t.n2, ':', t.s1, t.s2, ' '] ++
  (match t.sign with
   | some c => [c]
   | none => []) ++
  [t.z1, t.z2, ':', t.z3, t.z4]

/-- Statement side: the three shapes the optional parenthesized argument
list of the grammar can take. -/
inductive ParenTail where
  | noParens : ParenTail
  | justArgs : List Char → ParenTail
  | idAndArgs : List Char → List Char → ParenTail
deriving DecidableEq, Repr

/-- The `client_id` the grammar position holds. -/
def ParenTail.cid : ParenTail → Option String
  | .noParens => none
  | .justArgs _ => none
  | .idAndArgs c _ => some c.asString

/-- The `args` the grammar position holds. -/
def ParenTail.argsVal : ParenTail → Option String
  | .noParens => none
  | .justArgs a => some a.asString
  | .idAndArgs _ a => some a.asString

/-- The argument-list text substituted into the grammar. -/
def renderTail : ParenTail → List Char
  | .noParens => []
  | .justArgs a => '(' :: (a ++ [')'])
  | .idAndArgs c a => '(' :: (c ++ ',' :: ' ' :: (a ++ [')']))

/-- Substituted argument-list pieces that the grammar can reproduce
exactly: `args` free of newlines, without a trailing comma (the pattern
strips one), and — when no `client_id` is substituted — not itself
starting with a digit run followed by a comma (the pattern would capture
that as `client_id`); a substituted `client_id` is a nonempty digit
string. -/
def wfTail : ParenTail → Prop
  | .noParens => True
  | .justArgs a =>
      a.any (fun c => c = '\n') = false ∧ a.getLast? ≠ some ',' ∧
      ((spanP pyDigit a).1 = [] ∨ (spanP pyDigit a).2.head? ≠ some ',')
  | .idAndArgs c a =>
      c ≠ [] ∧ (∀ x ∈ c, pyDigit x = true) ∧
      a.any (fun c => c = '\n') = false ∧ a.getLast? ≠ some ','

/-- A full log line built by substituting the given pieces into the
grammar `<timestamp> <pid> <clientIp>: <module>/<function>[(...)]`. -/
def renderLine (t : TsParts) (pid ip md fn : List Char) (tl : ParenTail) : List Char :=
  renderTs t ++ ' ' :: (pid ++ ' ' :: (ip ++ ':' :: ' ' ::
    (md ++ '/' :: (fn ++ renderTail tl))))

end ServerXMLRPCLog

/-! ### Dictionary lemmas and check characterizations for `SELinux` -/

namespace SELinux

theorem dictLookup_dictInsert (p : Problems) (k : String) (v : Problem) (k' : String) :
    dictLookup (dictInsert p k v) k' = if k = k' then some v else dictLookup p k' := by
  induction p with
  | nil => simp [dictInsert, dictLookup]
  | cons hd tl ih =>
    obtain ⟨k₀, v₀⟩ := hd
    by_cases h : k₀ = k
    · subst h
      by_cases h' : k₀ = k' <;> simp [dictInsert, dictLookup, h']
    · by_cases h' : k₀ = k'
      · subst h'
        have hk : k ≠ k₀ := fun he => h he.symm
        simp [dictInsert, dictLookup, h, hk]
      · simp [dictInsert, dictLookup, h, h', ih]

theorem oshadow_none (a : Option Problem) : oshadow a none = a := by
  cases a <;> rfl

theorem check_sestatus_lookup (st : SEStatusData) (p : Problems) (k : String) :
    dictLookup (check_sestatus st p) k = oshadow (seSpec st k) (dictLookup p k) := by
  unfold check_sestatus seSpec
  by_cases h1 : st.selinux_status = "enabled"
  · by_cases h2 : st.current_mode = "enforcing"
    · simp [h1, h2, oshadow]
    · by_cases hk : k = RUNTIME_NOT_ENFORCING
      · subst hk
        simp [h1, h2, dictLookup_dictInsert, oshadow, RUNTIME_DISABLED, RUNTIME_NOT_ENFORCING]
      · simp [h1, h2, dictLookup_dictInsert, oshadow, hk, Ne.symm hk]
  · by_cases hk : k = RUNTIME_DISABLED
    · subst hk
      simp [h1, dictLookup_dictInsert, oshadow, RUNTIME_DISABLED, RUNTIME_NOT_ENFORCING]
    · simp [h1, dictLookup_dictInsert, oshadow, hk, Ne.symm hk]

theorem check_boot_config_lookup (cfg : SelinuxConfigData) (p : Problems) (k : String) :
    dictLookup (check_boot_config cfg p) k = oshadow (bootSpec cfg k) (dictLookup p k) := by
  unfold check_boot_config bootSpec
  by_cases h1 : cfg.SELINUX = "disabled"
  · by_cases hk : k = BOOT_DISABLED
    · subst hk
      simp [h1, dictLookup_dictInsert, oshadow, BOOT_DISABLED, BOOT_NOT_ENFORCING]
    · simp [h1, dictLookup_dictInsert, oshadow, hk, Ne.symm hk]
  · by_cases h2 : cfg.SELINUX = "enforcing"
    · simp [h1, h2, oshadow]
    · by_cases hk : k = BOOT_NOT_ENFORCING
      · subst hk
        simp [h1, h2, dictLookup_dictInsert, oshadow, BOOT_DISABLED, BOOT_NOT_ENFORCING]
      · simp [h1, h2, dictLookup_dictInsert, oshadow, hk, Ne.symm hk]

theorem optAppend_nil (a : Option Problem) : optAppend a [] = a := by
  rcases a with _ | v
  · rfl
  · cases v <;> simp [optAppend]

theorem optAppend_append (a : Option Problem) (f₁ f₂ : List String) :
    optAppend (optAppend a f₁) f₂ = optAppend a (f₁ ++ f₂) := by
  rcases a with _ | v
  · cases f₁ <;> cases f₂ <;> simp [optAppend]
  · cases v <;> simp [optAppend]

theorem dictLookup_grubAppend_same (p : Problems) (k line : String) :
    dictLookup (grubAppend p k line) k = optAppend (dictLookup p k) [line] := by
  unfold grubAppend
  cases h : dictLookup p k with
  | none => simp [h, dictLookup_dictInsert, optAppend]
  | some v =>
    cases v with
    | str s => simp [h, optAppend]
    | lines xs => simp [h, dictLookup_dictInsert, optAppend]

theorem dictLookup_grubAppend_other (p : Problems) (k line k' : String) (hk : k ≠ k') :
    dictLookup (grubAppend p k line) k' = dictLookup p k' := by
  unfold grubAppend
  cases h : dictLookup p k with
  | none => simp [h, dictLookup_dictInsert, hk]
  | some v =>
    cases v with
    | str s => simp [h]
    | lines xs => simp [h, dictLookup_dictInsert, hk]

theorem detectStep_gd (p : Problems) (line : String) :
    dictLookup (detectStep p line) GRUB_DISABLED =
      optAppend (dictLookup p GRUB_DISABLED)
        (if pyContains "selinux=0" line then [line] else []) := by
  unfold detectStep
  have hne : GRUB_NOT_ENFORCING ≠ GRUB_DISABLED := by decide
  by_cases h1 : pyContains "selinux=0" line <;>
    by_cases h2 : pyContains "enforcing=0" line <;>
      simp [h1, h2, dictLookup_grubAppend_other _ _ _ _ hne,
        dictLookup_grubAppend_same, optAppend_nil]

theorem detectStep_gne (p : Problems) (line : String) :
    dictLookup (detectStep p line) GRUB_NOT_ENFORCING =
      optAppend (dictLookup p GRUB_NOT_ENFORCING)
        (if pyContains "enforcing=0" line then [line] else []) := by
  unfold detectStep
  have hne : GRUB_DISABLED ≠ GRUB_NOT_ENFORCING := by decide
  by_cases h1 : pyContains "selinux=0" line <;>
    by_cases h2 : pyContains "enforcing=0" line <;>
      simp [h1, h2, dictLookup_grubAppend_other _ _ _ _ hne,
        dictLookup_grubAppend_same, optAppend_nil]

theorem detectStep_other (p : Problems) (line : String) (k : String)
    (h1 : k ≠ GRUB_DISABLED) (h2 : k ≠ GRUB_NOT_ENFORCING) :
    dictLookup (detectStep p line) k = dictLookup p k := by
  unfold detectStep
  by_cases hs : pyContains "selinux=0" line <;>
    by_cases he : pyContains "enforcing=0" line <;>
      simp [hs, he, dictLookup_grubAppend_other _ _ _ _ (Ne.symm h1),
        dictLookup_grubAppend_other _ _ _ _ (Ne.symm h2)]

theorem foldl_detectStep_gd (L : List String) (p : Problems) :
    dictLookup (L.foldl detectStep p) GRUB_DISABLED =
      optAppend (dictLookup p GRUB_DISABLED) (L.filter (pyContains "selinux=0")) := by
  induction L generalizing p with
  | nil => simp [optAppend_nil]
  | cons l L ih =>
    rw [List.foldl_cons, ih, detectStep_gd, optAppend_append, List.filter_cons]
    by_cases h : pyContains "selinux=0" l <;> simp [h]

theorem foldl_detectStep_gne (L : List String) (p : Problems) :
    dictLookup (L.foldl detectStep p) GRUB_NOT_ENFORCING =
      optAppend (dictLookup p GRUB_NOT_ENFORCING) (L.filter (pyContains "enforcing=0")) := by
  induction L generalizing p with
  | nil => simp [optAppend_nil]
  | cons l L ih =>
    rw [List.foldl_cons, ih, detectStep_gne, optAppend_append, List.filter_cons]
    by_cases h : pyContains "enforcing=0" l <;> simp [h]

theorem foldl_detectStep_other (L : List String) (p : Problems) (k : String)
    (h1 : k ≠ GRUB_DISABLED) (h2 : k ≠ GRUB_NOT_ENFORCING) :
    dictLookup (L.foldl detectStep p) k = dictLookup p k := by
  induction L generalizing p with
  | nil => rfl
  | cons l L ih => rw [List.foldl_cons, ih, detectStep_other _ _ _ h1 h2]

theorem check_grub_config_lookup (g : GrubConfigData) (p : Problems) (k : String)
    (hd : dictLookup p GRUB_DISABLED = none)
    (hn : dictLookup p GRUB_NOT_ENFORCING = none) :
    dictLookup (check_grub_config g p) k = oshadow (grubSpec g k) (dictLookup p k) := by
  unfold check_grub_config grubSpec
  by_cases h1 : k = GRUB_DISABLED
  · subst h1
    rw [foldl_detectStep_gd, hd]
    have : GRUB_DISABLED = GRUB_DISABLED := rfl
    by_cases he : ((kernelLines g).filter (pyContains "selinux=0")).isEmpty <;>
      simp [he, optAppend, oshadow]
  · by_cases h2 : k = GRUB_NOT_ENFORCING
    · subst h2
      rw [foldl_detectStep_gne, hn]
      by_cases he : ((kernelLines g).filter (pyContains "enforcing=0")).isEmpty <;>
        simp [h1, he, optAppend, oshadow]
    · rw [foldl_detectStep_other _ _ _ h1 h2]
      simp [h1, h2, oshadow]

theorem seSpec_none_of_ne (st : SEStatusData) (k : String)
    (h1 : k ≠ RUNTIME_DISABLED) (h2 : k ≠ RUNTIME_NOT_ENFORCING) : seSpec st k = none := by
  unfold seSpec
  rw [if_neg h1, if_neg h2]

theorem bootSpec_none_of_ne (cfg : SelinuxConfigData) (k : String)
    (h1 : k ≠ BOOT_DISABLED) (h2 : k ≠ BOOT_NOT_ENFORCING) : bootSpec cfg k = none := by
  unfold bootSpec
  rw [if_neg h1, if_neg h2]

theorem grubSpec_none_of_ne (g : GrubConfigData) (k : String)
    (h1 : k ≠ GRUB_DISABLED) (h2 : k ≠ GRUB_NOT_ENFORCING) : grubSpec g k = none := by
  unfold grubSpec
  rw [if_neg h1, if_neg h2]

theorem check_sestatus_keeps (st : SEStatusData) (p : Problems) (k : String)
    (h1 : k ≠ RUNTIME_DISABLED) (h2 : k ≠ RUNTIME_NOT_ENFORCING) :
    dictLookup (check_sestatus st p) k = dictLookup p k := by
  rw [check_sestatus_lookup, seSpec_none_of_ne st k h1 h2]
  rfl

theorem check_boot_config_keeps (cfg : SelinuxConfigData) (p : Problems) (k : String)
    (h1 : k ≠ BOOT_DISABLED) (h2 : k ≠ BOOT_NOT_ENFORCING) :
    dictLookup (check_boot_config cfg p) k = dictLookup p k := by
  rw [check_boot_config_lookup, bootSpec_none_of_ne cfg k h1 h2]
  rfl

theorem specs_disjoint (st : SEStatusData) (cfg : SelinuxConfigData) (g : GrubConfigData)
    (k : String) :
    (seSpec st k = none ∨ bootSpec cfg k = none) ∧
    (seSpec st k = none ∨ grubSpec g k = none) ∧
    (bootSpec cfg k = none ∨ grubSpec g k = none) := by
  by_cases h1 : k = RUNTIME_DISABLED
  · subst h1
    exact ⟨Or.inr (bootSpec_none_of_ne _ _ (by decide) (by decide)),
      Or.inr (grubSpec_none_of_ne _ _ (by decide) (by decide)),
      Or.inl (bootSpec_none_of_ne _ _ (by decide) (by decide))⟩
  · by_cases h2 : k = RUNTIME_NOT_ENFORCING
    · subst h2
      exact ⟨Or.inr (bootSpec_none_of_ne _ _ (by decide) (by decide)),
        Or.inr (grubSpec_none_of_ne _ _ (by decide) (by decide)),
        Or.inl (bootSpec_none_of_ne _ _ (by decide) (by decide))⟩
    · have hse : seSpec st k = none := seSpec_none_of_ne st k h1 h2
      by_cases h3 : k = BOOT_DISABLED
      · subst h3
        exact ⟨Or.inl hse, Or.inl hse,
          Or.inr (grubSpec_none_of_ne _ _ (by decide) (by decide))⟩
      · by_cases h4 : k = BOOT_NOT_ENFORCING
        · subst h4
          exact ⟨Or.inl hse, Or.inl hse,
            Or.inr (grubSpec_none_of_ne _ _ (by decide) (by decide))⟩
        · exact ⟨Or.inl hse, Or.inl hse, Or.inl (bootSpec_none_of_ne cfg k h3 h4)⟩

theorem oshadow_comm_of_disjoint (a b : Option Problem) (h : a = none ∨ b = none) :
    oshadow a b = oshadow b a := by
  rcases h with h | h <;> subst h
  · cases b <;> rfl
  · cases a <;> rfl

theorem oshadow_assoc (a b c : Option Problem) :
    oshadow (oshadow a b) c = oshadow a (oshadow b c) := by
  cases a <;> rfl

theorem no_grub_keys_se_boot (st : SEStatusData) (cfg : SelinuxConfigData) :
    dictLookup (check_sestatus st []) GRUB_DISABLED = none ∧
    dictLookup (check_sestatus st []) GRUB_NOT_ENFORCING = none ∧
    dictLookup (check_boot_config cfg []) GRUB_DISABLED = none ∧
    dictLookup (check_boot_config cfg []) GRUB_NOT_ENFORCING = none ∧
    dictLookup (check_boot_config cfg (check_sestatus st [])) GRUB_DISABLED = none ∧
    dictLookup (check_boot_config cfg (check_sestatus st [])) GRUB_NOT_ENFORCING = none ∧
    dictLookup (check_sestatus st (check_boot_config cfg [])) GRUB_DISABLED = none ∧
    dictLookup (check_sestatus st (check_boot_config cfg [])) GRUB_NOT_ENFORCING = none := by
  have hgd1 : GRUB_DISABLED ≠ RUNTIME_DISABLED := by decide
  have hgd2 : GRUB_DISABLED ≠ RUNTIME_NOT_ENFORCING := by decide
  have hgd3 : GRUB_DISABLED ≠ BOOT_DISABLED := by decide
  have hgd4 : GRUB_DISABLED ≠ BOOT_NOT_ENFORCING := by decide
  have hgn1 : GRUB_NOT_ENFORCING ≠ RUNTIME_DISABLED := by decide
  have hgn2 : GRUB_NOT_ENFORCING ≠ RUNTIME_NOT_ENFORCING := by decide
  have hgn3 : GRUB_NOT_ENFORCING ≠ BOOT_DISABLED := by decide
  have hgn4 : GRUB_NOT_ENFORCING ≠ BOOT_NOT_ENFORCING := by decide
  refine ⟨?_, ?_, ?_, ?_, ?_, ?_, ?_, ?_⟩
  · rw [check_sestatus_keeps st [] GRUB_DISABLED hgd1 hgd2]
    rfl
  · rw [check_sestatus_keeps st [] GRUB_NOT_ENFORCING hgn1 hgn2]
    rfl
  · rw [check_boot_config_keeps cfg [] GRUB_DISABLED hgd3 hgd4]
    rfl
  · rw [check_boot_config_keeps cfg [] GRUB_NOT_ENFORCING hgn3 hgn4]
    rfl
  · rw [check_boot_config_keeps cfg _ GRUB_DISABLED hgd3 hgd4,
      check_sestatus_keeps st [] GRUB_DISABLED hgd1 hgd2]
    rfl
  · rw [check_boot_config_keeps cfg _ GRUB_NOT_ENFORCING hgn3 hgn4,
      check_sestatus_keeps st [] GRUB_NOT_ENFORCING hgn1 hgn2]
    rfl
  · rw [check_sestatus_keeps st _ GRUB_DISABLED hgd1 hgd2,
      check_boot_config_keeps cfg [] GRUB_DISABLED hgd3 hgd4]
    rfl
  · rw [check_sestatus_keeps st _ GRUB_NOT_ENFORCING hgn1 hgn2,
      check_boot_config_keeps cfg [] GRUB_NOT_ENFORCING hgn3 hgn4]
    rfl

theorem SELinux_init_lookup (st : SEStatusData) (cfg : SelinuxConfigData)
    (g : GrubConfigData) (k : String) :
    dictLookup (SELinux_init st cfg g) k =
      oshadow (grubSpec g k) (oshadow (bootSpec cfg k) (seSpec st k)) := by
  obtain ⟨-, -, -, -, hd, hn, -, -⟩ := no_grub_keys_se_boot st cfg
  unfold SELinux_init
  rw [check_grub_config_lookup _ _ _ hd hn, check_boot_config_lookup,
    check_sestatus_lookup]
  rw [show dictLookup [] k = none from rfl, oshadow_none]

theorem oshadow3_perm (a b c : Option Problem)
    (hab : a = none ∨ b = none) (hac : a = none ∨ c = none) (hbc : b = none ∨ c = none) :
    oshadow c (oshadow b a) = oshadow b (oshadow c a) ∧
    oshadow c (oshadow b a) = oshadow c (oshadow a b) ∧
    oshadow c (oshadow b a) = oshadow a (oshadow c b) ∧
    oshadow c (oshadow b a) = oshadow b (oshadow a c) ∧
    oshadow c (oshadow b a) = oshadow a (oshadow b c) := by
  rcases hab with h | h
  · subst h
    rcases hbc with h | h
    · subst h
      cases c <;> simp [oshadow]
    · subst h
      cases b <;> simp [oshadow]
  · subst h
    rcases hac with h | h
    · subst h
      cases c <;> simp [oshadow]
    · subst h
      cases a <;> simp [oshadow]

/-- C8: for every triple of input snapshots the final problem map — read
through `dictLookup`, which is how a Python dict compares for equality —
is the same whichever of the six orders the three checks run in, because
the key sets written by the checks are pairwise disjoint. -/
theorem c8_merge_order_independent (st : SEStatusData) (cfg : SelinuxConfigData)
    (g : GrubConfigData) (k : String) :
    dictLookup (SELinux_init st cfg g) k =
      dictLookup (check_boot_config cfg (check_grub_config g (check_sestatus st []))) k ∧
    dictLookup (SELinux_init st cfg g) k =
      dictLookup (check_grub_config g (check_sestatus st (check_boot_config cfg []))) k ∧
    dictLookup (SELinux_init st cfg g) k =
      dictLookup (check_sestatus st (check_grub_config g (check_boot_config cfg []))) k ∧
    dictLookup (SELinux_init st cfg g) k =
      dictLookup (check_boot_config cfg (check_sestatus st (check_grub_config g []))) k ∧
    dictLookup (SELinux_init st cfg g) k =
      dictLookup (check_sestatus st (check_boot_config cfg (check_grub_config g []))) k := by
  obtain ⟨hab, hac, hbc⟩ := specs_disjoint st cfg g k
  obtain ⟨n1, n2, n3, n4, -, -, n7, n8⟩ := no_grub_keys_se_boot st cfg
  have hnil : dictLookup ([] : Problems) k = none := rfl
  have hnilgd : dictLookup ([] : Problems) GRUB_DISABLED = none := rfl
  have hnilgn : dictLookup ([] : Problems) GRUB_NOT_ENFORCING = none := rfl
  have e1 := SELinux_init_lookup st cfg g k
  have e2 : dictLookup (check_boot_config cfg (check_grub_config g (check_sestatus st []))) k
      = oshadow (bootSpec cfg k) (oshadow (grubSpec g k) (seSpec st k)) := by
    rw [check_boot_config_lookup, check_grub_config_lookup _ _ _ n1 n2,
      check_sestatus_lookup, hnil, oshadow_none]
  have e3 : dictLookup (check_grub_config g (check_sestatus st (check_boot_config cfg []))) k
      = oshadow (grubSpec g k) (oshadow (seSpec st k) (bootSpec cfg k)) := by
    rw [check_grub_config_lookup _ _ _ n7 n8, check_sestatus_lookup,
      check_boot_config_lookup, hnil, oshadow_none]
  have e4 : dictLookup (check_sestatus st (check_grub_config g (check_boot_config cfg []))) k
      = oshadow (seSpec st k) (oshadow (grubSpec g k) (bootSpec cfg k)) := by
    rw [check_sestatus_lookup, check_grub_config_lookup _ _ _ n3 n4,
      check_boot_config_lookup, hnil, oshadow_none]
  have e5 : dictLookup (check_boot_config cfg (check_sestatus st (check_grub_config g []))) k
      = oshadow (bootSpec cfg k) (oshadow (seSpec st k) (grubSpec g k)) := by
    rw [check_boot_config_lookup, check_sestatus_lookup,
      check_grub_config_lookup _ _ _ hnilgd hnilgn, hnil, oshadow_none]
  have e6 : dictLookup (check_sestatus st (check_boot_config cfg (check_grub_config g []))) k
      = oshadow (seSpec st k) (oshadow (bootSpec cfg k) (grubSpec g k)) := by
    rw [check_sestatus_lookup, check_boot_config_lookup,
      check_grub_config_lookup _ _ _ hnilgd hnilgn, hnil, oshadow_none]
  obtain ⟨p1, p2, p3, p4, p5⟩ := oshadow3_perm (seSpec st k) (bootSpec cfg k) (grubSpec g k)
    hab hac hbc
  exact ⟨e1.trans (p1.trans e2.symm), e1.trans (p2.trans e3.symm),
    e1.trans (p3.trans e4.symm), e1.trans (p4.trans e5.symm),
    e1.trans (p5.trans e6.symm)⟩

/-- C9: `ok()` is true exactly when the problem map built at construction
has zero entries; it is a pure read of the already-built map. -/
theorem c9_ok_iff_no_problems (st : SEStatusData) (cfg : SelinuxConfigData)
    (g : GrubConfigData) :
    ok (SELinux_init st cfg g) = true ↔ SELinux_init st cfg g = [] := by
  unfold ok
  cases SELinux_init st cfg g <;> simp [List.isEmpty]

theorem oshadow_none_left (b : Option Problem) : oshadow none b = b := rfl

theorem oshadow_some_left (v : Problem) (b : Option Problem) :
    oshadow (some v) b = some v := rfl

/-- C10: every key in the constructed problem map is one of the six fixed
identifiers; the two grub kinds hold non-empty lists of collected kernel
lines, and the four runtime/boot kinds hold the verbatim snapshot field. -/
theorem c10_problems_invariant (st : SEStatusData) (cfg : SelinuxConfigData)
    (g : GrubConfigData) (k : String) (v : Problem)
    (h : dictLookup (SELinux_init st cfg g) k = some v) :
    (k = RUNTIME_DISABLED ∧ v = .str st.selinux_status) ∨
    (k = RUNTIME_NOT_ENFORCING ∧ v = .str st.current_mode) ∨
    (k = BOOT_DISABLED ∧ v = .str cfg.SELINUX) ∨
    (k = BOOT_NOT_ENFORCING ∧ v = .str cfg.SELINUX) ∨
    (k = GRUB_DISABLED ∧ ∃ xs, v = .lines xs ∧ xs ≠ [] ∧ ∀ x ∈ xs, x ∈ kernelLines g) ∨
    (k = GRUB_NOT_ENFORCING ∧ ∃ xs, v = .lines xs ∧ xs ≠ [] ∧ ∀ x ∈ xs, x ∈ kernelLines g) := by
  rw [SELinux_init_lookup] at h
  by_cases h1 : k = RUNTIME_DISABLED
  · subst h1
    rw [grubSpec_none_of_ne _ _ (by decide) (by decide),
      bootSpec_none_of_ne _ _ (by decide) (by decide),
      oshadow_none_left, oshadow_none_left] at h
    unfold seSpec at h
    rw [if_pos rfl] at h
    by_cases hs : st.selinux_status = "enabled"
    · rw [if_neg (not_not_intro hs)] at h
      exact Option.noConfusion h
    · rw [if_pos hs] at h
      injection h with h
      exact Or.inl ⟨rfl, h.symm⟩
  · by_cases h2 : k = RUNTIME_NOT_ENFORCING
    · subst h2
      rw [grubSpec_none_of_ne _ _ (by decide) (by decide),
        bootSpec_none_of_ne _ _ (by decide) (by decide),
        oshadow_none_left, oshadow_none_left] at h
      unfold seSpec at h
      rw [if_neg (by decide), if_pos rfl] at h
      by_cases hs : st.selinux_status = "enabled" ∧ st.current_mode ≠ "enforcing"
      · rw [if_pos hs] at h
        injection h with h
        exact Or.inr (Or.inl ⟨rfl, h.symm⟩)
      · rw [if_neg hs] at h
        exact Option.noConfusion h
    · by_cases h3 : k = BOOT_DISABLED
      · subst h3
        rw [grubSpec_none_of_ne _ _ (by decide) (by decide),
          seSpec_none_of_ne _ _ (by decide) (by decide),
          oshadow_none_left, oshadow_none] at h
        unfold bootSpec at h
        rw [if_pos rfl] at h
        by_cases hs : cfg.SELINUX = "disabled"
        · rw [if_pos hs] at h
          injection h with h
          exact Or.inr (Or.inr (Or.inl ⟨rfl, h.symm⟩))
        · rw [if_neg hs] at h
          exact Option.noConfusion h
      · by_cases h4 : k = BOOT_NOT_ENFORCING
        · subst h4
          rw [grubSpec_none_of_ne _ _ (by decide) (by decide),
            seSpec_none_of_ne _ _ (by decide) (by decide),
            oshadow_none_left, oshadow_none] at h
          unfold bootSpec at h
          rw [if_neg (by decide), if_pos rfl] at h
          by_cases hs : cfg.SELINUX ≠ "disabled" ∧ cfg.SELINUX ≠ "enforcing"
          · rw [if_pos hs] at h
            injection h with h
            exact Or.inr (Or.inr (Or.inr (Or.inl ⟨rfl, h.symm⟩)))
          · rw [if_neg hs] at h
            exact Option.noConfusion h
        · by_cases h5 : k = GRUB_DISABLED
          · subst h5
            rw [seSpec_none_of_ne _ _ (by decide) (by decide),
              bootSpec_none_of_ne _ _ (by decide) (by decide),
              oshadow_none_left, oshadow_none] at h
            unfold grubSpec at h
            rw [if_pos rfl] at h
            by_cases he : ((kernelLines g).filter (pyContains "selinux=0")).isEmpty
            · rw [if_pos he] at h
              exact Option.noConfusion h
            · rw [if_neg he] at h
              injection h with h
              refine Or.inr (Or.inr (Or.inr (Or.inr (Or.inl ⟨rfl, _, h.symm, ?_, ?_⟩))))
              · intro hnil
                exact he (by simp [hnil])
              · intro x hx
                exact (List.mem_filter.mp hx).1
          · by_cases h6 : k = GRUB_NOT_ENFORCING
            · subst h6
              rw [seSpec_none_of_ne _ _ (by decide) (by decide),
                bootSpec_none_of_ne _ _ (by decide) (by decide),
                oshadow_none_left, oshadow_none] at h
              unfold grubSpec at h
              rw [if_neg (by decide), if_pos rfl] at h
              by_cases he : ((kernelLines g).filter (pyContains "enforcing=0")).isEmpty
              · rw [if_pos he] at h
                exact Option.noConfusion h
              · rw [if_neg he] at h
                injection h with h
                refine Or.inr (Or.inr (Or.inr (Or.inr (Or.inr ⟨rfl, _, h.symm, ?_, ?_⟩))))
                · intro hnil
                  exact he (by simp [hnil])
                · intro x hx
                  exact (List.mem_filter.mp hx).1
            · rw [seSpec_none_of_ne _ _ h1 h2, bootSpec_none_of_ne _ _ h3 h4,
                grubSpec_none_of_ne _ _ h5 h6] at h
              exact Option.noConfusion h

theorem c10_problems_invariant_witness :
    dictLookup (SELinux_init ⟨"disabled", "enforcing"⟩ ⟨"enforcing"⟩ ⟨[], []⟩)
        RUNTIME_DISABLED = some (.str "disabled") ∧
    ((RUNTIME_DISABLED = RUNTIME_DISABLED ∧ Problem.str "disabled" = .str "disabled") ∨
     (RUNTIME_DISABLED = RUNTIME_NOT_ENFORCING ∧ Problem.str "disabled" = .str "enforcing") ∨
     (RUNTIME_DISABLED = BOOT_DISABLED ∧ Problem.str "disabled" = .str "enforcing") ∨
     (RUNTIME_DISABLED = BOOT_NOT_ENFORCING ∧ Problem.str "disabled" = .str "enforcing") ∨
     (RUNTIME_DISABLED = GRUB_DISABLED ∧ ∃ xs, Problem.str "disabled" = .lines xs ∧
        xs ≠ [] ∧ ∀ x ∈ xs, x ∈ kernelLines ⟨[], []⟩) ∨
     (RUNTIME_DISABLED = GRUB_NOT_ENFORCING ∧ ∃ xs, Problem.str "disabled" = .lines xs ∧
        xs ≠ [] ∧ ∀ x ∈ xs, x ∈ kernelLines ⟨[], []⟩)) :=
  ⟨by decide, c10_problems_invariant ⟨"disabled", "enforcing"⟩ ⟨"enforcing"⟩ ⟨[], []⟩
    RUNTIME_DISABLED (.str "disabled") (by decide)⟩

/-- C4: when `selinux_status` differs from `"enabled"` the runtime check
records `sestatus_disabled` with the literal status string, leaves the
`sestatus_not_enforcing` entry untouched, and never reads `current_mode`
(the outcome is invariant under changing it); when the status is
`"enabled"` and `current_mode` differs from `"enforcing"` it records
`sestatus_not_enforcing` with that mode; otherwise it records nothing. -/
theorem c4_runtime_check (st : SEStatusData) (p : SELinux.Problems) :
    (st.selinux_status ≠ "enabled" →
      dictLookup (check_sestatus st p) RUNTIME_DISABLED = some (.str st.selinux_status) ∧
      dictLookup (check_sestatus st p) RUNTIME_NOT_ENFORCING =
        dictLookup p RUNTIME_NOT_ENFORCING ∧
      ∀ m, check_sestatus ⟨st.selinux_status, m⟩ p = check_sestatus st p) ∧
    (st.selinux_status = "enabled" → st.current_mode ≠ "enforcing" →
      dictLookup (check_sestatus st p) RUNTIME_NOT_ENFORCING = some (.str st.current_mode) ∧
      dictLookup (check_sestatus st p) RUNTIME_DISABLED = dictLookup p RUNTIME_DISABLED) ∧
    (st.selinux_status = "enabled" → st.current_mode = "enforcing" →
      check_sestatus st p = p) := by
  refine ⟨fun h => ⟨?_, ?_, ?_⟩, fun h1 h2 => ⟨?_, ?_⟩, fun h1 h2 => ?_⟩
  · rw [check_sestatus_lookup]
    unfold seSpec
    rw [if_pos rfl, if_pos h, oshadow_some_left]
  · rw [check_sestatus_lookup]
    unfold seSpec
    rw [if_neg (by decide), if_pos rfl,
      if_neg (fun hc => h hc.1), oshadow_none_left]
  · intro m
    unfold check_sestatus
    rw [if_pos h, if_pos h]
  · rw [check_sestatus_lookup]
    unfold seSpec
    rw [if_neg (by decide), if_pos rfl, if_pos ⟨h1, h2⟩, oshadow_some_left]
  · rw [check_sestatus_lookup]
    unfold seSpec
    rw [if_pos rfl, if_neg (not_not_intro h1), oshadow_none_left]
  · unfold check_sestatus
    rw [if_neg (not_not_intro h1), if_neg (not_not_intro h2)]

theorem c4_runtime_check_witness :
    dictLookup (check_sestatus ⟨"disabled", "permissive"⟩ []) RUNTIME_DISABLED =
      some (.str "disabled") ∧
    check_sestatus ⟨"disabled", "enforcing"⟩ [] = check_sestatus ⟨"disabled", "permissive"⟩ [] ∧
    dictLookup (check_sestatus ⟨"enabled", "permissive"⟩ []) RUNTIME_NOT_ENFORCING =
      some (.str "permissive") ∧
    check_sestatus ⟨"enabled", "enforcing"⟩ [] = [] :=
  ⟨((c4_runtime_check ⟨"disabled", "permissive"⟩ []).1 (by decide)).1,
   ((c4_runtime_check ⟨"disabled", "permissive"⟩ []).1 (by decide)).2.2 "enforcing",
   ((c4_runtime_check ⟨"enabled", "permissive"⟩ []).2.1 rfl (by decide)).1,
   (c4_runtime_check ⟨"enabled", "enforcing"⟩ []).2.2 rfl rfl⟩

/-- C5: when the persisted `SELINUX` value equals `"disabled"` the
boot-config check records `selinux_conf_disabled` with that value; when
it differs from both `"disabled"` and `"enforcing"` it records
`selinux_conf_not_enforcing` with the actual value; when it equals
`"enforcing"` it records nothing. -/
theorem c5_boot_config_check (cfg : SelinuxConfigData) (p : SELinux.Problems) :
    (cfg.SELINUX = "disabled" →
      dictLookup (check_boot_config cfg p) BOOT_DISABLED = some (.str cfg.SELINUX) ∧
      dictLookup (check_boot_config cfg p) BOOT_NOT_ENFORCING =
        dictLookup p BOOT_NOT_ENFORCING) ∧
    (cfg.SELINUX ≠ "disabled" → cfg.SELINUX ≠ "enforcing" →
      dictLookup (check_boot_config cfg p) BOOT_NOT_ENFORCING = some (.str cfg.SELINUX) ∧
      dictLookup (check_boot_config cfg p) BOOT_DISABLED = dictLookup p BOOT_DISABLED) ∧
    (cfg.SELINUX = "enforcing" → check_boot_config cfg p = p) := by
  refine ⟨fun h => ⟨?_, ?_⟩, fun h1 h2 => ⟨?_, ?_⟩, fun h => ?_⟩
  · rw [check_boot_config_lookup]
    unfold bootSpec
    rw [if_pos rfl, if_pos h, oshadow_some_left]
  · rw [check_boot_config_lookup]
    unfold bootSpec
    rw [if_neg (by decide), if_pos rfl, if_neg (fun hc => hc.1 h), oshadow_none_left]
  · rw [check_boot_config_lookup]
    unfold bootSpec
    rw [if_neg (by decide), if_pos rfl, if_pos ⟨h1, h2⟩, oshadow_some_left]
  · rw [check_boot_config_lookup]
    unfold bootSpec
    rw [if_pos rfl, if_neg h1, oshadow_none_left]
  · unfold check_boot_config
    have hd : cfg.SELINUX ≠ "disabled" := by
      rw [h]
      decide
    simp only []
    rw [if_neg hd, if_neg (not_not_intro h)]

theorem c5_boot_config_check_witness :
    dictLookup (check_boot_config ⟨"disabled"⟩ []) BOOT_DISABLED = some (.str "disabled") ∧
    dictLookup (check_boot_config ⟨"permissive"⟩ []) BOOT_NOT_ENFORCING =
      some (.str "permissive") ∧
    check_boot_config ⟨"enforcing"⟩ [] = [] :=
  ⟨((c5_boot_config_check ⟨"disabled"⟩ []).1 rfl).1,
   ((c5_boot_config_check ⟨"permissive"⟩ []).2.1 (by decide) (by decide)).1,
   (c5_boot_config_check ⟨"enforcing"⟩ []).2.2 rfl⟩

theorem isEmpty_false_of_ne_nil {α : Type} (l : List α) (h : l ≠ []) :
    l.isEmpty = false := by
  cases l with
  | nil => exact absurd rfl h
  | cons a t => rfl

theorem foldl_entry_collect (pre : String) (entry : List (String × String))
    (acc : List String) :
    entry.foldl (fun acc nv => if pyStartsWith nv.1 pre then acc ++ [nv.2] else acc) acc
      = acc ++ (entry.filter (fun nv => pyStartsWith nv.1 pre)).map (fun nv => nv.2) := by
  induction entry generalizing acc with
  | nil => simp
  | cons nv t ih =>
    by_cases h : pyStartsWith nv.1 pre <;>
      simp [h, ih, List.filter_cons]

theorem foldl_entries_collect (pre : String) (entries : List (List (String × String)))
    (acc : List String) :
    entries.foldl (fun acc line =>
        line.foldl (fun acc nv => if pyStartsWith nv.1 pre then acc ++ [nv.2] else acc) acc)
        acc
      = acc ++ entries.flatMap
          (fun e => (e.filter (fun nv => pyStartsWith nv.1 pre)).map (fun nv => nv.2)) := by
  induction entries generalizing acc with
  | nil => simp
  | cons e t ih =>
    rw [List.foldl_cons, foldl_entry_collect, ih, List.flatMap_cons, List.append_assoc]

theorem kernelLines_menuentry (g : GrubConfigData) (h : g.menuentry ≠ []) :
    kernelLines g = g.menuentry.flatMap
      (fun e => (e.filter (fun nv => pyStartsWith nv.1 "linux")).map (fun nv => nv.2)) := by
  unfold kernelLines
  rw [if_pos (isEmpty_false_of_ne_nil _ h), foldl_entries_collect]
  rfl

theorem kernelLines_title (g : GrubConfigData) (h : g.menuentry = []) :
    kernelLines g = g.title.flatMap
      (fun e => (e.filter (fun nv => pyStartsWith nv.1 "kernel")).map (fun nv => nv.2)) := by
  unfold kernelLines
  rw [h, if_neg (by decide)]
  cases hg : g.title with
  | nil => simp
  | cons a t =>
    rw [if_pos (show (a :: t : List (List (String × String))).isEmpty = false from rfl),
      foldl_entries_collect, List.nil_append]

/-- C3: the bootloader check collects kernel lines from the `menuentry`
family (names starting with `linux`) whenever that family is non-empty —
and the result then never depends on the `title` entries — falling back
to the `title` family (names starting with `kernel`) only when no
`menuentry` entry exists; every collected line containing `selinux=0`
lands in the `grub_disabled` list and every line containing
`enforcing=0` in the `grub_not_enforcing` list (each list existing
exactly when non-empty), so one line can appear in both. -/
theorem c3_grub_config_check (g : GrubConfigData) (p : SELinux.Problems)
    (hd : dictLookup p GRUB_DISABLED = none)
    (hn : dictLookup p GRUB_NOT_ENFORCING = none) :
    (g.menuentry ≠ [] →
      kernelLines g = g.menuentry.flatMap
        (fun e => (e.filter (fun nv => pyStartsWith nv.1 "linux")).map (fun nv => nv.2)) ∧
      ∀ t, kernelLines ⟨g.menuentry, t⟩ = kernelLines g) ∧
    (g.menuentry = [] →
      kernelLines g = g.title.flatMap
        (fun e => (e.filter (fun nv => pyStartsWith nv.1 "kernel")).map (fun nv => nv.2))) ∧
    dictLookup (check_grub_config g p) GRUB_DISABLED =
      (if ((kernelLines g).filter (pyContains "selinux=0")).isEmpty then none
       else some (.lines ((kernelLines g).filter (pyContains "selinux=0")))) ∧
    dictLookup (check_grub_config g p) GRUB_NOT_ENFORCING =
      (if ((kernelLines g).filter (pyContains "enforcing=0")).isEmpty then none
       else some (.lines ((kernelLines g).filter (pyContains "enforcing=0")))) ∧
    (∀ line ∈ kernelLines g, pyContains "selinux=0" line = true →
      pyContains "enforcing=0" line = true →
      ∃ xs ys, dictLookup (check_grub_config g p) GRUB_DISABLED = some (.lines xs) ∧
        line ∈ xs ∧
        dictLookup (check_grub_config g p) GRUB_NOT_ENFORCING = some (.lines ys) ∧
        line ∈ ys) := by
  have cgd : dictLookup (check_grub_config g p) GRUB_DISABLED =
      (if ((kernelLines g).filter (pyContains "selinux=0")).isEmpty then none
       else some (.lines ((kernelLines g).filter (pyContains "selinux=0")))) := by
    unfold check_grub_config
    rw [foldl_detectStep_gd, hd]
    rfl
  have cgn : dictLookup (check_grub_config g p) GRUB_NOT_ENFORCING =
      (if ((kernelLines g).filter (pyContains "enforcing=0")).isEmpty then none
       else some (.lines ((kernelLines g).filter (pyContains "enforcing=0")))) := by
    unfold check_grub_config
    rw [foldl_detectStep_gne, hn]
    rfl
  refine ⟨fun hm => ⟨kernelLines_menuentry g hm, fun t => ?_⟩, kernelLines_title g,
    cgd, cgn, ?_⟩
  · rw [kernelLines_menuentry ⟨g.menuentry, t⟩ hm, kernelLines_menuentry g hm]
  · intro line hline hsel henf
    have hms : line ∈ (kernelLines g).filter (pyContains "selinux=0") :=
      List.mem_filter.mpr ⟨hline, hsel⟩
    have hme : line ∈ (kernelLines g).filter (pyContains "enforcing=0") :=
      List.mem_filter.mpr ⟨hline, henf⟩
    refine ⟨(kernelLines g).filter (pyContains "selinux=0"),
      (kernelLines g).filter (pyContains "enforcing=0"), ?_, hms, ?_, hme⟩
    · rw [cgd, isEmpty_false_of_ne_nil _ (List.ne_nil_of_mem hms)]
      rfl
    · rw [cgn, isEmpty_false_of_ne_nil _ (List.ne_nil_of_mem hme)]
      rfl

theorem c3_grub_config_check_witness :
    (kernelLines ⟨[[("linux16", "ro selinux=0 enforcing=0"), ("initrd", "foo")]],
        [[("kernel", "bar selinux=0")]]⟩ =
      kernelLines ⟨[[("linux16", "ro selinux=0 enforcing=0"), ("initrd", "foo")]],
        [[("kernel", "zap")]]⟩) ∧
    (∃ xs ys,
      dictLookup (check_grub_config
          ⟨[[("linux16", "ro selinux=0 enforcing=0"), ("initrd", "foo")]],
            [[("kernel", "bar selinux=0")]]⟩ []) GRUB_DISABLED = some (.lines xs) ∧
      "ro selinux=0 enforcing=0" ∈ xs ∧
      dictLookup (check_grub_config
          ⟨[[("linux16", "ro selinux=0 enforcing=0"), ("initrd", "foo")]],
            [[("kernel", "bar selinux=0")]]⟩ []) GRUB_NOT_ENFORCING = some (.lines ys) ∧
      "ro selinux=0 enforcing=0" ∈ ys) :=
  ⟨((c3_grub_config_check
      ⟨[[("linux16", "ro selinux=0 enforcing=0"), ("initrd", "foo")]],
        [[("kernel", "zap")]]⟩ [] rfl rfl).1 (by decide)).2 [[("kernel", "bar selinux=0")]],
   (c3_grub_config_check
      ⟨[[("linux16", "ro selinux=0 enforcing=0"), ("initrd", "foo")]],
        [[("kernel", "bar selinux=0")]]⟩ [] rfl rfl).2.2.2.2
     "ro selinux=0 enforcing=0" (by decide) (by decide) (by decide)⟩

end SELinux

/-! ### Parser claims -/

namespace ServerXMLRPCLog

/-- C1 (code evidence): `last` on the empty view returns the empty dict
without fault, but on a view whose most recently inspected line does not
match `LINE_RE` the read `msg_info['client_ip']` raises `KeyError`
(modelled by `Except.error ()`) instead of returning the parse result of
the very last line. -/
theorem c1_last_keyerror_evidence :
    last [] = .ok emptyMsg ∧
    (parse_line "not a log line").client_ip = none ∧
    last ["not a log line"] = .error () :=
  ⟨rfl, rfl, rfl⟩

/-- C7 (code evidence): when the final two lines both parse with a
non-empty client ip, `last` returns the most recent line's record; but
when the final line does not yield a parsed client ip, `last` raises
`KeyError` instead of falling back to the second-to-last line. -/
theorem c7_last_fallback_evidence :
    last ["2016/06/21 14:01:07 +01:00 123 1.2.3.4: a/b",
          "2016/06/21 14:01:08 +01:00 124 5.6.7.8: c/d"] =
      .ok (parse_line "2016/06/21 14:01:08 +01:00 124 5.6.7.8: c/d") ∧
    (parse_line "2016/06/21 14:01:07 +01:00 123 1.2.3.4: a/b").client_ip =
      some "1.2.3.4" ∧
    (parse_line "#truncated").client_ip = none ∧
    last ["2016/06/21 14:01:07 +01:00 123 1.2.3.4: a/b", "#truncated"] = .error () :=
  ⟨rfl, rfl, rfl, rfl⟩

/-- C2 counterexample: on this line `LINE_RE` matches and timestamp
normalization fails (month 13), yet the record's `timestamp` field holds
the raw matched timestamp string — it is not null. -/
theorem c2_timestamp_not_null_counterexample :
    strptimeZ (sliceTs "2016/13/21 14:01:07 +01:00".toList) = none ∧
    (matchLine "2016/13/21 14:01:07 +01:00 123 1.2.3.4: a/b".toList).isSome = true ∧
    (parse_line "2016/13/21 14:01:07 +01:00 123 1.2.3.4: a/b").timestamp =
      some (.str "2016/13/21 14:01:07 +01:00") :=
  ⟨rfl, rfl, rfl⟩

/-- C2 (amended): on every line where the pattern matches but timestamp
normalization fails, the record still carries pid, client ip, module,
function, client id and args from the match — the failure aborts nothing —
while the `timestamp` field keeps the raw matched timestamp string
instead of being nulled. -/
theorem c2_amended_normalization_failure (line : String) (g : LineGroups)
    (hm : matchLine line.toList = some g)
    (hf : strptimeZ (sliceTs g.timestamp.toList) = none) :
    parse_line line =
      { raw_log := some line
        timestamp := some (.str g.timestamp)
        pid := some g.pid
        client_ip := some g.client_ip
        module := some g.module
        function := some g.function
        client_id := some g.client_id
        args := some g.args } := by
  unfold parse_line
  rw [hm]
  simp only [normalizeTs, hf]

theorem c2_amended_normalization_failure_witness :
    matchLine "2016/13/21 14:01:07 +01:00 123 1.2.3.4: a/b".toList =
      some ⟨"2016/13/21 14:01:07 +01:00", "123", "1.2.3.4", "a", "b", none, none⟩ ∧
    strptimeZ (sliceTs "2016/13/21 14:01:07 +01:00".toList) = none ∧
    parse_line "2016/13/21 14:01:07 +01:00 123 1.2.3.4: a/b" =
      { raw_log := some "2016/13/21 14:01:07 +01:00 123 1.2.3.4: a/b"
        timestamp := some (.str "2016/13/21 14:01:07 +01:00")
        pid := some "123"
        client_ip := some "1.2.3.4"
        module := some "a"
        function := some "b"
        client_id := some none
        args := some none } :=
  ⟨rfl, rfl,
   c2_amended_normalization_failure "2016/13/21 14:01:07 +01:00 123 1.2.3.4: a/b"
     ⟨"2016/13/21 14:01:07 +01:00", "123", "1.2.3.4", "a", "b", none, none⟩ rfl rfl⟩

end ServerXMLRPCLog

namespace ServerXMLRPCLog

theorem spanP_append (p : Char → Bool) (xs ys : List Char)
    (h1 : ∀ c ∈ xs, p c = true) (h2 : ∀ c, ys.head? = some c → p c = false) :
    spanP p (xs ++ ys) = (xs, ys) := by
  induction xs with
  | nil =>
    cases ys with
    | nil => rfl
    | cons y yt => simp [spanP, h2 y rfl]
  | cons x xt ih =>
    have ht := ih (fun c hc => h1 c (by simp [hc]))
    simp [spanP, h1 x (by simp), ht]

theorem expectDigits_append (ds r : List Char) (h : ∀ c ∈ ds, pyDigit c = true) :
    expectDigits ds.length (ds ++ r) = some (ds, r) := by
  induction ds with
  | nil => rfl
  | cons c t ih =>
    simp [expectDigits, h c (by simp), ih (fun x hx => h x (by simp [hx]))]

theorem expectChar_cons (c : Char) (r : List Char) : expectChar c (c :: r) = some r := by
  simp [expectChar]

theorem getLast?_all (q : Char → Bool) :
    ∀ (l : List Char) (c : Char), (∀ x ∈ l, q x = true) → l.getLast? = some c →
      q c = true
  | [], c, _, h => by simp at h
  | [a], c, hall, h => by
    simp at h
    exact h ▸ hall a (by simp)
  | a :: b :: t, c, hall, h => by
    rw [List.getLast?_cons_cons] at h
    exact getLast?_all q (b :: t) c (fun x hx => hall x (by simp [hx])) h

theorem matchTimestamp_render (t : TsParts) (rest : List Char) (hts : wfTs t) :
    matchTimestamp (renderTs t ++ rest) = some (renderTs t, rest) := by
  obtain ⟨hy1, hy2, hy3, hy4, hm1, hm2, hd1, hd2, hh1, hh2, hn1, hn2, hs1, hs2,
    hz1, hz2, hz3, hz4, hsgn⟩ := hts
  have hz1ne : ¬(t.z1 = '+' ∨ t.z1 = '-') := by
    rintro (h | h) <;> rw [h] at hz1 <;> exact absurd hz1 (by decide)
  rcases hsgn with h | h | h <;>
    simp [renderTs, matchTimestamp, expectDigits, expectChar, h, hz1ne,
      hy1, hy2, hy3, hy4, hm1, hm2, hd1, hd2, hh1, hh2, hn1, hn2, hs1, hs2,
      hz1, hz2, hz3, hz4]

end ServerXMLRPCLog

namespace ServerXMLRPCLog

theorem stripTrailingComma_id (a : List Char) (h : a.getLast? ≠ some ',') :
    stripTrailingComma a = a := by
  unfold stripTrailingComma
  rw [if_neg h]

theorem parenGroups_noCid (a : List Char)
    (h1 : (spanP pyDigit a).1 = [] ∨ (spanP pyDigit a).2.head? ≠ some ',')
    (h2 : a.getLast? ≠ some ',') :
    parenGroups a = (none, a.asString) := by
  have hstrip := stripTrailingComma_id a h2
  unfold parenGroups
  split
  · next ds rest heq =>
    have hds : ds = [] := by
      rcases h1 with h | h
      · rw [heq] at h
        exact h
      · rw [heq] at h
        exact absurd rfl h
    subst hds
    simp [hstrip]
  · simp [hstrip]

theorem parenGroups_cid (cid a : List Char) (hc : cid ≠ [])
    (hcd : ∀ c ∈ cid, pyDigit c = true) (h2 : a.getLast? ≠ some ',') :
    parenGroups (cid ++ ',' :: ' ' :: a) = (some cid.asString, a.asString) := by
  have hsp : spanP pyDigit (cid ++ ',' :: ' ' :: a) = (cid, ',' :: ' ' :: a) :=
    spanP_append pyDigit cid (',' :: ' ' :: a) hcd
      (fun c hcc => by
        simp at hcc
        rw [← hcc]
        decide)
  have hstrip := stripTrailingComma_id a h2
  unfold parenGroups
  rw [hsp]
  simp [SELinux.isEmpty_false_of_ne_nil cid hc, hstrip]

end ServerXMLRPCLog

namespace ServerXMLRPCLog

theorem getLast?_cons_of_ne (c : Char) (ys : List Char) (h : ys ≠ []) :
    (c :: ys).getLast? = ys.getLast? := by
  cases ys with
  | nil => exact absurd rfl h
  | cons b t => rw [List.getLast?_cons_cons]

theorem renderLine_getLast (pid ip md TAIL : List Char)
    (hne : TAIL ≠ []) (h : TAIL.getLast? ≠ some '\n') :
    ¬((' ' :: (pid ++ ' ' :: (ip ++ ':' :: ' ' ::
        (md ++ '/' :: TAIL)))).getLast? = some '\n') := by
  have s1ne : ('/' :: TAIL) ≠ [] := by simp
  have s1 : ('/' :: TAIL).getLast? ≠ some '\n' := by
    rw [getLast?_cons_of_ne _ _ hne]
    exact h
  have s2ne : (md ++ '/' :: TAIL) ≠ [] := by simp
  have s2 : (md ++ '/' :: TAIL).getLast? ≠ some '\n' := by
    rw [List.getLast?_append_of_ne_nil _ s1ne]
    exact s1
  have s3ne : (' ' :: (md ++ '/' :: TAIL)) ≠ [] := by simp
  have s3 : (' ' :: (md ++ '/' :: TAIL)).getLast? ≠ some '\n' := by
    rw [getLast?_cons_of_ne _ _ s2ne]
    exact s2
  have s4ne : (':' :: ' ' :: (md ++ '/' :: TAIL)) ≠ [] := by simp
  have s4 : (':' :: ' ' :: (md ++ '/' :: TAIL)).getLast? ≠ some '\n' := by
    rw [getLast?_cons_of_ne _ _ s3ne]
    exact s3
  have s5ne : (ip ++ ':' :: ' ' :: (md ++ '/' :: TAIL)) ≠ [] := by simp
  have s5 : (ip ++ ':' :: ' ' :: (md ++ '/' :: TAIL)).getLast? ≠ some '\n' := by
    rw [List.getLast?_append_of_ne_nil _ s4ne]
    exact s4
  have s6ne : (' ' :: (ip ++ ':' :: ' ' :: (md ++ '/' :: TAIL))) ≠ [] := by simp
  have s6 : (' ' :: (ip ++ ':' :: ' ' :: (md ++ '/' :: TAIL))).getLast? ≠ some '\n' := by
    rw [getLast?_cons_of_ne _ _ s5ne]
    exact s5
  have s7ne : (pid ++ ' ' :: (ip ++ ':' :: ' ' :: (md ++ '/' :: TAIL))) ≠ [] := by simp
  have s7 : (pid ++ ' ' :: (ip ++ ':' :: ' ' :: (md ++ '/' :: TAIL))).getLast? ≠
      some '\n' := by
    rw [List.getLast?_append_of_ne_nil _ s6ne]
    exact s6
  rw [getLast?_cons_of_ne _ _ s7ne]
  exact s7

end ServerXMLRPCLog

namespace ServerXMLRPCLog

theorem matchLine_renderLine (t : TsParts) (pid ip md fn : List Char) (tl : ParenTail)
    (hts : wfTs t)
    (hpid : pid ≠ []) (hpidd : ∀ c ∈ pid, pyDigit c = true)
    (hip : ip ≠ []) (hips : ∀ c ∈ ip, pySpace c = false)
    (hmd : md ≠ []) (hmdw : ∀ c ∈ md, pyWord c = true)
    (hfn : fn ≠ []) (hfnc : ∀ c ∈ fn, pyFnChar c = true)
    (htl : wfTail tl) :
    matchLine (renderLine t pid ip md fn tl) =
      some ⟨(renderTs t).asString, pid.asString, ip.asString, md.asString, fn.asString,
        tl.cid, tl.argsVal⟩ := by
  have E1 : ∀ X : List Char, matchTimestamp (renderTs t ++ X) = some (renderTs t, X) :=
    fun X => matchTimestamp_render t X hts
  have E2 : ∀ X : List Char, spanP pyDigit (pid ++ ' ' :: X) = (pid, ' ' :: X) :=
    fun X => spanP_append _ _ _ hpidd (fun c hc => by
      simp at hc
      subst hc
      decide)
  have E3 : ∀ X : List Char, spanP (fun c => !pySpace c) (ip ++ ':' :: ' ' :: X) =
      (ip ++ [':'], ' ' :: X) := by
    intro X
    have h1 : ∀ c ∈ ip ++ [':'], (!pySpace c) = true := by
      intro c hc
      rcases List.mem_append.mp hc with h | h
      · simp [hips c h]
      · simp at h
        subst h
        decide
    have h2 : ∀ c, (' ' :: X).head? = some c → (!pySpace c) = false := by
      intro c hc
      simp at hc
      subst hc
      decide
    have := spanP_append (fun c => !pySpace c) (ip ++ [':']) (' ' :: X) h1 h2
    simpa [List.append_assoc] using this
  have E7 : ∀ X : List Char, spanP pyWord (md ++ '/' :: X) = (md, '/' :: X) :=
    fun X => spanP_append _ _ _ hmdw (fun c hc => by
      simp at hc
      subst hc
      decide)
  have hipl : ¬((ip ++ [':']).length < 2) := by
    have h0 := List.length_pos.mpr hip
    simp [List.length_append]
    omega
  have hipg : (ip ++ [':']).getLast? = some ':' := List.getLast?_concat _
  have hipd : (ip ++ [':']).dropLast = ip := List.dropLast_concat
  have hpids : pid.isEmpty = false := SELinux.isEmpty_false_of_ne_nil pid hpid
  have hmds : md.isEmpty = false := SELinux.isEmpty_false_of_ne_nil md hmd
  have hfns : fn.isEmpty = false := SELinux.isEmpty_false_of_ne_nil fn hfn
  have hiplen : 1 ≤ ip.length := List.length_pos.mpr hip
  cases tl with
  | noParens =>
    have E8 : spanP pyFnChar fn = (fn, []) := by
      have := spanP_append pyFnChar fn [] hfnc (fun c hc => by simp at hc)
      rwa [List.append_nil] at this
    have hlast := renderLine_getLast pid ip md fn hfn (fun hq => by
      have := getLast?_all pyFnChar fn '\n' hfnc hq
      exact absurd this (by decide))
    simp [matchLine, renderLine, renderTail, hlast, E1, expectChar_cons, E2, E3, E7,
      hipl, hipg, hipd, hpids, hmds, hfns, E8, hpid, hip, hmd, hfn, hiplen,
      ParenTail.cid, ParenTail.argsVal]
  | justArgs a =>
    obtain ⟨hnl, htc, hnc⟩ := htl
    have E8 : spanP pyFnChar (fn ++ '(' :: (a ++ [')'])) = (fn, '(' :: (a ++ [')'])) :=
      spanP_append _ _ _ hfnc (fun c hc => by
        simp at hc
        subst hc
        decide)
    have hr2g : ((a ++ [')']) : List Char).getLast? = some ')' := List.getLast?_concat _
    have hr2d : ((a ++ [')']) : List Char).dropLast = a := List.dropLast_concat
    have hpg := parenGroups_noCid a hnc htc
    have htail_last : (fn ++ '(' :: (a ++ [')'])).getLast? ≠ some '\n' := by
      rw [List.getLast?_append_of_ne_nil _ (by simp : ('(' :: (a ++ [')'])) ≠ []),
        getLast?_cons_of_ne _ _ (by simp), hr2g]
      decide
    have hlast := renderLine_getLast pid ip md (fn ++ '(' :: (a ++ [')'])) (by simp)
      htail_last
    have hnlmem : ¬('\n' ∈ a) := fun hmem => by
      have := List.any_eq_false.mp hnl _ hmem
      simp at this
    simp [matchLine, renderLine, renderTail, hlast, E1, expectChar_cons, E2, E3, E7,
      hipl, hipg, hipd, hpids, hmds, hfns, E8, hr2g, hr2d, hnl, hnlmem, hpg,
      hpid, hip, hmd, hfn, hiplen, ParenTail.cid, ParenTail.argsVal]
  | idAndArgs cid a =>
    obtain ⟨hcne, hcd, hnl, htc⟩ := htl
    have E8 : spanP pyFnChar (fn ++ '(' :: (cid ++ ',' :: ' ' :: (a ++ [')']))) =
        (fn, '(' :: (cid ++ ',' :: ' ' :: (a ++ [')']))) :=
      spanP_append _ _ _ hfnc (fun c hc => by
        simp at hc
        subst hc
        decide)
    have hassoc : cid ++ ',' :: ' ' :: (a ++ [')']) = (cid ++ ',' :: ' ' :: a) ++ [')'] := by
      simp
    have hr2g : (cid ++ ',' :: ' ' :: (a ++ [')'])).getLast? = some ')' := by
      rw [hassoc]
      exact List.getLast?_concat _
    have hr2d : (cid ++ ',' :: ' ' :: (a ++ [')'])).dropLast = cid ++ ',' :: ' ' :: a := by
      rw [hassoc]
      exact List.dropLast_concat
    have hany : (cid ++ ',' :: ' ' :: a).any (fun c => c = '\n') = false := by
      apply List.any_eq_false.mpr
      intro x hx
      simp only [List.mem_append, List.mem_cons] at hx
      simp only [decide_eq_true_eq]
      rcases hx with h | h | h | h
      · intro he
        subst he
        exact absurd (hcd _ h) (by decide)
      · subst h
        decide
      · subst h
        decide
      · have := List.any_eq_false.mp hnl x h
        simpa using this
    have htail_last : (fn ++ '(' :: (cid ++ ',' :: ' ' :: (a ++ [')']))).getLast? ≠
        some '\n' := by
      rw [List.getLast?_append_of_ne_nil _
          (by simp : ('(' :: (cid ++ ',' :: ' ' :: (a ++ [')']))) ≠ []),
        getLast?_cons_of_ne _ _ (by simp), hr2g]
      decide
    have hlast := renderLine_getLast pid ip md
      (fn ++ '(' :: (cid ++ ',' :: ' ' :: (a ++ [')']))) (by simp) htail_last
    have hanymem : ¬('\n' ∈ (cid ++ ',' :: ' ' :: a)) := fun hmem => by
      have := List.any_eq_false.mp hany _ hmem
      simp at this
    have hpg := parenGroups_cid cid a hcne hcd htc
    simp [matchLine, renderLine, renderTail, hlast, E1, expectChar_cons, E2, E3, E7,
      hipl, hipg, hipd, hpids, hmds, hfns, E8, hr2g, hr2d, hany, hanymem, hpg,
      hpid, hip, hmd, hfn, hiplen, ParenTail.cid, ParenTail.argsVal]

end ServerXMLRPCLog

namespace ServerXMLRPCLog

/-- C6: `parse_line` always returns a record whose `raw_log` field is the
input line verbatim; on a line the fixed pattern does not match it
populates only `raw_log` and raises no fault (`parse_line` is total);
and on every line built by substituting well-formed pieces into the
grammar positions it recovers exactly the substituted substrings for
pid, client ip, module, function and the optional client id and args. -/
theorem c6_parse_line_exact :
    (∀ line : String, (parse_line line).raw_log = some line) ∧
    (∀ line : String, matchLine line.toList = none →
      parse_line line = { emptyMsg with raw_log := some line }) ∧
    (∀ (t : TsParts) (pid ip md fn : List Char) (tl : ParenTail),
      wfTs t → pid ≠ [] → (∀ c ∈ pid, pyDigit c = true) →
      ip ≠ [] → (∀ c ∈ ip, pySpace c = false) →
      md ≠ [] → (∀ c ∈ md, pyWord c = true) →
      fn ≠ [] → (∀ c ∈ fn, pyFnChar c = true) →
      wfTail tl →
      parse_line (renderLine t pid ip md fn tl).asString =
        { raw_log := some (renderLine t pid ip md fn tl).asString
          timestamp := some (normalizeTs (renderTs t).asString)
          pid := some pid.asString
          client_ip := some ip.asString
          module := some md.asString
          function := some fn.asString
          client_id := some tl.cid
          args := some tl.argsVal }) := by
  refine ⟨?_, ?_, ?_⟩
  · intro line
    unfold parse_line
    cases h : matchLine line.toList <;> simp
  · intro line h
    unfold parse_line
    rw [h]
  · intro t pid ip md fn tl hts h1 h2 h3 h4 h5 h6 h7 h8 htl
    unfold parse_line
    have hm : matchLine (renderLine t pid ip md fn tl).asString.toList =
        some ⟨(renderTs t).asString, pid.asString, ip.asString, md.asString,
          fn.asString, tl.cid, tl.argsVal⟩ := by
      rw [show (renderLine t pid ip md fn tl).asString.toList =
          renderLine t pid ip md fn tl from rfl]
      exact matchLine_renderLine t pid ip md fn tl hts h1 h2 h3 h4 h5 h6 h7 h8 htl
    rw [hm]

theorem c6_parse_line_exact_witness :
    (renderLine
        ⟨'2', '0', '1', '6', '0', '6', '2', '1', '1', '4', '0', '1', '0', '7',
          '0', '1', '0', '0', some '+'⟩
        "29079".toList "172.16.41.79".toList "rhnServer".toList
        "server_certificate.valid".toList
        (.idAndArgs "1000014665".toList "abc".toList)).asString =
      "2016/06/21 14:01:07 +01:00 29079 172.16.41.79: rhnServer/server_certificate.valid(1000014665, abc)" ∧
    parse_line
        "2016/06/21 14:01:07 +01:00 29079 172.16.41.79: rhnServer/server_certificate.valid(1000014665, abc)" =
      { raw_log := some
          "2016/06/21 14:01:07 +01:00 29079 172.16.41.79: rhnServer/server_certificate.valid(1000014665, abc)"
        timestamp := some (normalizeTs "2016/06/21 14:01:07 +01:00")
        pid := some "29079"
        client_ip := some "172.16.41.79"
        module := some "rhnServer"
        function := some "server_certificate.valid"
        client_id := some (some "1000014665")
        args := some (some "abc") } := by
  refine ⟨rfl, ?_⟩
  have h := c6_parse_line_exact.2.2
    ⟨'2', '0', '1', '6', '0', '6', '2', '1', '1', '4', '0', '1', '0', '7',
      '0', '1', '0', '0', some '+'⟩
    "29079".toList "172.16.41.79".toList "rhnServer".toList
    "server_certificate.valid".toList
    (.idAndArgs "1000014665".toList "abc".toList)
    (by unfold wfTs; decide) (by decide) (by decide) (by decide) (by decide)
    (by decide) (by decide) (by decide) (by decide) (by unfold wfTail; decide)
  exact h

end ServerXMLRPCLog
